import Mathlib

/-!
Verification of the MS5611 barometer driver (`src/libraries/ms5611/ms5611.cpp`)
against its natural-language specification.

The driver is shallowly embedded: machine integers become `ℤ` with explicit
two's-complement wrapping (`wrap32`, `wrap64`) at every store into an
`int32_t`/`int64_t` variable, arithmetic right shift `>> k` becomes euclidean
division by `2^k` (for a positive divisor this is floor division, which is what
the compiler implements for signed shifts), the global mutable variables become
fields of an explicit state record, and bus transactions become explicit
parameters carrying the bytes the adapter placed in the caller's buffer
together with a success flag.
-/

namespace Ms5611

/-- Two's-complement wrap of an unbounded integer into a signed 32-bit value,
the effect of storing into an `int32_t`. -/
def wrap32 (x : ℤ) : ℤ := (x + 2147483648) % 4294967296 - 2147483648

/-- Two's-complement wrap of an unbounded integer into a signed 64-bit value,
the effect of storing into an `int64_t`. -/
def wrap64 (x : ℤ) : ℤ :=
  (x + 9223372036854775808) % 18446744073709551616 - 9223372036854775808

/-! ### The compensation arithmetic of `ms5611_updateData` (lines 232-307)

Every store into an `int32_t` local is wrapped with `wrap32`, every store into
an `int64_t` local with `wrap64`.  `>> k` on a signed value is arithmetic
shift, i.e. floor division by `2^k`, which for a positive divisor is `ℤ`
division.  The shift amounts appear as the corresponding power-of-two
numerals.  Inputs: the six PROM factors are `uint16_t` values and the raw
samples are 24-bit values held in `uint32_t`, all passed here as `ℤ`. -/

/-- Lines 232-266 of `ms5611_updateData`: computation of `dt`, `temp`
(32-bit) and of the first-order `off` and `sens` (64-bit).
Returns `(dt, temp, off, sens)`. -/
def ms_firstOrder (c1 c2 c3 c4 c5 c6 d2 : ℤ) : ℤ × ℤ × ℤ × ℤ :=
  -- int32_t c5s = c5; c5s <<= 8;
  let c5s : ℤ := wrap32 (wrap32 c5 * 256)
  -- dt = d2 - c5s;
  let dt : ℤ := wrap32 (d2 - c5s)
  -- int32_t c6s = c6; c6s *= dt; c6s >>= 23;
  let c6s : ℤ := wrap32 (wrap32 c6 * dt) / 8388608
  -- temp = 2000 + c6s;
  let temp : ℤ := wrap32 (2000 + c6s)
  -- int64_t c2d = c2; c2d <<= 16;
  let c2d : ℤ := wrap64 (wrap64 c2 * 65536)
  -- int64_t c4d = c4; c4d *= dt; c4d >>= 7;
  let c4d : ℤ := wrap64 (wrap64 c4 * dt) / 128
  -- off = c2d + c4d;
  let off : ℤ := wrap64 (c2d + c4d)
  -- int64_t c1d = c1; c1d <<= 15;
  let c1d : ℤ := wrap64 (wrap64 c1 * 32768)
  -- int64_t c3d = c3; c3d *= dt; c3d >>= 8;
  let c3d : ℤ := wrap64 (wrap64 c3 * dt) / 256
  -- sens = c1d + c3d;
  let sens : ℤ := wrap64 (c1d + c3d)
  (dt, temp, off, sens)

/-- Lines 268-294 of `ms5611_updateData`: the second-order compensation
applied to `(temp, off, sens)` when `temp < 2000`.  Returns the updated
`(temp, off, sens)`. -/
def ms_secondOrder (dt temp off sens : ℤ) : ℤ × ℤ × ℤ :=
  if temp < 2000 then
    -- t2 = dt; t2 *= t2; t2 >>= 31;
    let t2a : ℤ := wrap64 dt
    let t2 : ℤ := wrap64 (t2a * t2a) / 2147483648
    -- off2 = temp-2000; off2 *= off2; off2 *= 5;
    let off2a : ℤ := wrap64 (temp - 2000)
    let off2b : ℤ := wrap64 (off2a * off2a)
    let off2c : ℤ := wrap64 (off2b * 5)
    -- sens2 = off2; off2 >>= 1; sens2 >>= 2;
    let sens2a : ℤ := off2c
    let off2 : ℤ := off2c / 2
    let sens2 : ℤ := sens2a / 4
    -- if( temp < -1500 ){ ... }
    let os : ℤ × ℤ :=
      if temp < -1500 then
        -- int64_t dtemp = temp + 1500; dtemp *= dtemp;
        let dtempa : ℤ := wrap64 (temp + 1500)
        let dtempb : ℤ := wrap64 (dtempa * dtempa)
        -- off2 += 7*dtemp;
        let off2i : ℤ := wrap64 (off2 + wrap64 (7 * dtempb))
        -- dtemp *= 11; dtemp >>= 1; sens2 += dtemp;
        let dtempc : ℤ := wrap64 (dtempb * 11) / 2
        let sens2i : ℤ := wrap64 (sens2 + dtempc)
        (off2i, sens2i)
      else (off2, sens2)
    -- temp = temp - t2; off = off - off2; sens = sens - sens2;
    (wrap32 (temp - t2), wrap64 (off - os.1), wrap64 (sens - os.2))
  else (temp, off, sens)

/-- Lines 296-301 of `ms5611_updateData`: `p = d1 * sens; p >>= 21; p -= off;`. -/
def ms_pressure (d1 sens off : ℤ) : ℤ :=
  wrap64 (wrap64 (d1 * sens) / 2097152 - off)

/-- The integer part of the compensation in `ms5611_updateData`
(lines 232-301): from the six PROM factors and the two raw samples to the
final `(temp, p)` pair that lines 305-306 scale and store. -/
def ms_updateCompensated (c1 c2 c3 c4 c5 c6 d1 d2 : ℤ) : ℤ × ℤ :=
  let fo := ms_firstOrder c1 c2 c3 c4 c5 c6 d2
  let so := ms_secondOrder fo.1 fo.2.1 fo.2.2.1 fo.2.2.2
  (so.1, ms_pressure d1 so.2.2 so.2.1)

/-! ### The reference algorithm of spec section 4.3

`spec_compensate` is the spec's pseudocode read literally over unbounded
integers, with `>> k` as floor division by `2^k`.  `spec_compensateTrunc`
is the same algorithm except that the product `C6 * dT` is truncated to a
signed 32-bit value before the shift — the minimal deviation needed to
describe what the code actually computes. -/

/-- Spec 4.3: `dT = D2 - (C5 << 8)`. -/
def spec_dT (c5 d2 : ℤ) : ℤ := d2 - c5 * 256

/-- Spec 4.3: `TEMP = 2000 + (C6 * dT) >> 23`, in arbitrary precision. -/
def spec_TEMP (c5 c6 d2 : ℤ) : ℤ := 2000 + c6 * spec_dT c5 d2 / 8388608

/-- Spec 4.3: `OFF = (C2 << 16) + ((C4 * dT) >> 7)`. -/
def spec_OFF (c2 c4 c5 d2 : ℤ) : ℤ := c2 * 65536 + c4 * spec_dT c5 d2 / 128

/-- Spec 4.3: `SENS = (C1 << 15) + ((C3 * dT) >> 8)`. -/
def spec_SENS (c1 c3 c5 d2 : ℤ) : ℤ := c1 * 32768 + c3 * spec_dT c5 d2 / 256

/-- Spec 4.3: the second-order correction block, in arbitrary precision:
`T2 = (dT*dT) >> 31`, `OFF2 = 5*(TEMP-2000)^2 >> 1`,
`SENS2 = 5*(TEMP-2000)^2 >> 2`, plus the extra terms below `-1500`;
applied only when `TEMP < 2000`.  Returns the corrected `(TEMP, OFF, SENS)`. -/
def spec_second (dT temp off sens : ℤ) : ℤ × ℤ × ℤ :=
  if temp < 2000 then
    let t2 : ℤ := dT * dT / 2147483648
    let off2 : ℤ := 5 * ((temp - 2000) * (temp - 2000)) / 2 +
      (if temp < -1500 then 7 * ((temp + 1500) * (temp + 1500)) else 0)
    let sens2 : ℤ := 5 * ((temp - 2000) * (temp - 2000)) / 4 +
      (if temp < -1500 then 11 * ((temp + 1500) * (temp + 1500)) / 2 else 0)
    (temp - t2, off - off2, sens - sens2)
  else (temp, off, sens)

/-- Spec 4.3: `P = ((D1 * SENS) >> 21) - OFF`. -/
def spec_P (d1 sens off : ℤ) : ℤ := d1 * sens / 2097152 - off

/-- The full reference algorithm of spec section 4.3 in arbitrary-precision
integer arithmetic: `(TEMP, P)` after second-order correction. -/
def spec_compensate (c1 c2 c3 c4 c5 c6 d1 d2 : ℤ) : ℤ × ℤ :=
  let so := spec_second (spec_dT c5 d2) (spec_TEMP c5 c6 d2)
    (spec_OFF c2 c4 c5 d2) (spec_SENS c1 c3 c5 d2)
  (so.1, spec_P d1 so.2.2 so.2.1)

/-- The reference algorithm amended at exactly one point: the product
`C6 * dT` is truncated to a signed 32-bit value (as the `int32_t`
intermediate `c6s` of the code does) before the `>> 23`. -/
def spec_TEMPTrunc (c5 c6 d2 : ℤ) : ℤ :=
  2000 + wrap32 (c6 * spec_dT c5 d2) / 8388608

/-- The reference algorithm of spec section 4.3 with the single amendment of
`spec_TEMPTrunc`: everything else is arbitrary-precision. -/
def spec_compensateTrunc (c1 c2 c3 c4 c5 c6 d1 d2 : ℤ) : ℤ × ℤ :=
  let so := spec_second (spec_dT c5 d2) (spec_TEMPTrunc c5 c6 d2)
    (spec_OFF c2 c4 c5 d2) (spec_SENS c1 c3 c5 d2)
  (so.1, spec_P d1 so.2.2 so.2.1)

/-! ### Bus transactions

The serial-bus adapter (`I2Cdev`) is external.  A read transaction is modelled
by the bytes it left in the caller's buffer together with its success flag;
on a failed/timed-out transaction the buffer holds whatever partial or stale
bytes the adapter produced.  Bus writes (reset / conversion commands) carry no
data back and do not touch driver state, so they have no model. -/

/-- Outcome of a 2-byte bus read (`readBytes(..., 2, data, ...)`). -/
structure BusRead2 where
  ok : Bool
  b0 : ℤ
  b1 : ℤ
  deriving DecidableEq

/-- Outcome of a 3-byte bus read (`readBytes(..., 3, data, ...)`). -/
structure BusRead3 where
  ok : Bool
  b0 : ℤ
  b1 : ℤ
  b2 : ℤ
  deriving DecidableEq

/-- `ms5611_getPROMValue` (lines 36-45): assembles the two buffer bytes into a
16-bit value.  The success status of the transaction is not consulted. -/
def ms5611_getPROMValue (r : BusRead2) : ℤ :=
  -- uint16_t v = data[0]; v <<= 8; v += data[1];
  r.b0 * 256 + r.b1

/-- `ms5611_getDigitalValue` (lines 48-57): assembles the three buffer bytes
into a 24-bit value and stores it into the by-reference destination.  Neither
the success status of the transaction nor the previous destination `value` is
consulted. -/
def ms5611_getDigitalValue (r : BusRead3) (value : ℤ) : ℤ :=
  -- value = (uint32_t)data[0]; value <<= 8; value += data[1]; value <<= 8; value += data[2];
  (r.b0 * 256 + r.b1) * 256 + r.b2

/-! ### Driver state and the sampling state machine -/

/-- The two values of `measureStep`:
`MS5611_STEP_READ_TEMP` / `MS5611_STEP_READ_PRESSURE`. -/
inductive MeasureStep where
  | readTemp
  | readPressure
  deriving DecidableEq

/-- The driver's mutable globals (lines 7-22) plus the hardware timer counter
`TCNT2`/`TCNT3` that `ms5611_release` and `ms5611_setTimer` reset. -/
structure MsState where
  d1i : ℤ
  d2i : ℤ
  measureStep : MeasureStep
  newData : Bool
  locked : Bool
  interruptWait : Bool
  deviceReset : Bool
  c1 : ℤ
  c2 : ℤ
  c3 : ℤ
  c4 : ℤ
  c5 : ℤ
  c6 : ℤ
  compensatedTemperature : ℚ
  compensatedPressure : ℚ
  tcnt : ℤ
  deriving DecidableEq

/-- `ms5611_readTempStep` (lines 70-77): read the pending digital value into
`d1i` and issue the D2 conversion command (a bus write, no state effect). -/
def ms5611_readTempStep (r : BusRead3) (s : MsState) : MsState :=
  { s with d1i := ms5611_getDigitalValue r s.d1i }

/-- `ms5611_readPressureStep` (lines 80-90): read the pending digital value
into `d2i`, issue the D1 conversion command, and set `newData`. -/
def ms5611_readPressureStep (r : BusRead3) (s : MsState) : MsState :=
  { s with d2i := ms5611_getDigitalValue r s.d2i, newData := true }

/-- `ms5611_readStep` (lines 96-105): perform the half-cycle selected by
`measureStep` and flip `measureStep`. -/
def ms5611_readStep (r : BusRead3) (s : MsState) : MsState :=
  if s.measureStep = MeasureStep.readTemp then
    { ms5611_readTempStep r s with measureStep := MeasureStep.readPressure }
  else
    { ms5611_readPressureStep r s with measureStep := MeasureStep.readTemp }

/-- `ms5611_lock` (lines 112-114). -/
def ms5611_lock (s : MsState) : MsState :=
  { s with locked := true }

/-- `ms5611_release` (lines 117-132): clear `locked`; if an interrupt arrived
between lock and release, run the missed `ms5611_readStep` on its behalf,
reset the hardware timer counter, and clear `interruptWait`.  `r` carries the
bus bytes that the deferred step's digital read would obtain. -/
def ms5611_release (r : BusRead3) (s : MsState) : MsState :=
  let s1 := { s with locked := false }
  if s1.interruptWait then
    let s2 := ms5611_readStep r s1
    { s2 with tcnt := 0, interruptWait := false }
  else s1

/-- The timer compare-match interrupt handler `ISR(TIMER2_COMPA_vect)`
(lines 137-153): if the mutex is locked, record the missed tick in
`interruptWait` and return; otherwise re-enable interrupts (no state effect)
and run `ms5611_readStep`. -/
def ms5611_isr (r : BusRead3) (s : MsState) : MsState :=
  if s.locked then
    { s with interruptWait := true }
  else
    ms5611_readStep r s

/-- `ms5611_setTimer` (lines 157-177): configure the timer registers and zero
the counter.  Only the counter is part of the model. -/
def ms5611_setTimer (s : MsState) : MsState :=
  { s with tcnt := 0 }

/-- `ms5611_init` (lines 185-212): on the first call (when `deviceReset` is
still false) send the reset command, wait, and load the six PROM factors;
on every call reset `measureStep` and `newData`, start a D1 conversion and
set up the timer.  `prom i` carries the bus bytes of the PROM read for
coefficient `i`. -/
def ms5611_init (prom : Fin 6 → BusRead2) (s : MsState) : MsState :=
  let s1 :=
    if s.deviceReset = false then
      { s with deviceReset := true,
               c1 := ms5611_getPROMValue (prom 0),
               c2 := ms5611_getPROMValue (prom 1),
               c3 := ms5611_getPROMValue (prom 2),
               c4 := ms5611_getPROMValue (prom 3),
               c5 := ms5611_getPROMValue (prom 4),
               c6 := ms5611_getPROMValue (prom 5) }
    else s
  let s2 := { s1 with measureStep := MeasureStep.readTemp, newData := false }
  ms5611_setTimer s2

/-- `ms5611_dataReady` (lines 216-218). -/
def ms5611_dataReady (s : MsState) : Bool :=
  s.newData

/-- The critical section of `ms5611_updateData` (lines 226-229): lock the
mutex, copy the raw values, clear `newData`.  Returns the state at the end of
the critical section (still locked) together with the two copies. -/
def ms5611_updateData_critical (s : MsState) : MsState × ℤ × ℤ :=
  let s1 := ms5611_lock s
  let d1 := s1.d1i
  let d2 := s1.d2i
  ({ s1 with newData := false }, d1, d2)

/-- `ms5611_updateData` (lines 221-307): take the snapshot inside the
critical section, release the mutex (possibly running a deferred step), then
run the compensation arithmetic on the copies and store the scaled results.
`r` carries the bus bytes of a deferred step's digital read. -/
def ms5611_updateData (r : BusRead3) (s : MsState) : MsState :=
  let cs := ms5611_updateData_critical s
  let s3 := ms5611_release r cs.1
  let tp := ms_updateCompensated s3.c1 s3.c2 s3.c3 s3.c4 s3.c5 s3.c6
    cs.2.1 cs.2.2
  { s3 with
    -- compensatedTemperature = (double)temp/100;
    compensatedTemperature := (tp.1 : ℚ) / 100,
    -- compensatedPressure = ((double)p / (double)32768)/(double)100;
    compensatedPressure := ((tp.2 : ℚ) / 32768) / 100 }

/-- `ms5611_getTemperature` (lines 310-312). -/
def ms5611_getTemperature (s : MsState) : ℚ :=
  s.compensatedTemperature

/-- `ms5611_getPressure` (lines 315-317). -/
def ms5611_getPressure (s : MsState) : ℚ :=
  s.compensatedPressure

/-- `ms5611_getAltitude` (lines 320-325), over real arithmetic.
Modelled from the spec: the reference sea-level pressure
`MS5611_BASE_SEA_PRESSURE` is a constant from the header `ms5611.h`, which is
not part of the sources; the spec only says it is externally configured, so
it is passed here as the parameter `base`.  The exponent literal and the
formula are exactly those of lines 322-323. -/
noncomputable def ms5611_getAltitude (base : ℝ) (s : MsState) : ℝ :=
  -- alti = pow((compensatedPressure/(MS5611_BASE_SEA_PRESSURE)), 0.1902949572);
  let alti : ℝ := ((s.compensatedPressure : ℝ) / base) ^ (0.1902949572 : ℝ)
  -- alti = (1-alti)*(288.15/0.0065);
  (1 - alti) * (288.15 / 0.0065)

/-- Iterated sampler steps: `stepIter bus n` performs `n` successive
`ms5611_readStep` calls, the `k`-th using the bus bytes `bus k`. -/
def stepIter (bus : ℕ → BusRead3) : ℕ → MsState → MsState
  | 0, s => s
  | n + 1, s => ms5611_readStep (bus n) (stepIter bus n s)

/-- The six PROM calibration factors of a driver state. -/
def coeffs (s : MsState) : ℤ × ℤ × ℤ × ℤ × ℤ × ℤ :=
  (s.c1, s.c2, s.c3, s.c4, s.c5, s.c6)

/-! ### Theorems -/

/-- C3: if the timer interrupt fires while the lock is held, the handler only
sets `interruptWait` — it modifies neither raw value, nor `measureStep`, nor
`newData` — and the next `ms5611_release` executes exactly one
`ms5611_readStep` on behalf of the missed tick, resets the hardware timer
counter to zero, and clears `interruptWait`: the released state is exactly one
`ms5611_readStep` applied to the unlocked state, so no step is lost and none
is duplicated. -/
theorem isr_while_locked_defers_one_step (r r2 : BusRead3) (s : MsState)
    (h : s.locked = true) :
    (ms5611_isr r s).d1i = s.d1i ∧
    (ms5611_isr r s).d2i = s.d2i ∧
    (ms5611_isr r s).measureStep = s.measureStep ∧
    (ms5611_isr r s).newData = s.newData ∧
    (ms5611_isr r s).interruptWait = true ∧
    ms5611_release r2 (ms5611_isr r s) =
      { ms5611_readStep r2 { s with locked := false, interruptWait := false }
        with tcnt := 0 } := by
  cases s with
  | mk d1i d2i ms nd lk iw dr c1 c2 c3 c4 c5 c6 ct cp tc =>
    subst h
    cases ms <;>
      simp [ms5611_isr, ms5611_release, ms5611_readStep, ms5611_readTempStep,
        ms5611_readPressureStep]

/-- Witness for `isr_while_locked_defers_one_step` at a concrete locked
state. -/
theorem isr_while_locked_defers_one_step_witness :
    (ms5611_isr ⟨true, 1, 2, 3⟩
        ⟨10, 20, MeasureStep.readTemp, true, true, false, true,
          1, 2, 3, 4, 5, 6, 0, 0, 7⟩).interruptWait = true ∧
    ms5611_release ⟨true, 4, 5, 6⟩
        (ms5611_isr ⟨true, 1, 2, 3⟩
          ⟨10, 20, MeasureStep.readTemp, true, true, false, true,
            1, 2, 3, 4, 5, 6, 0, 0, 7⟩) =
      { ms5611_readStep ⟨true, 4, 5, 6⟩
          { d1i := 10, d2i := 20, measureStep := MeasureStep.readTemp,
            newData := true, locked := false, interruptWait := false,
            deviceReset := true, c1 := 1, c2 := 2, c3 := 3, c4 := 4,
            c5 := 5, c6 := 6, compensatedTemperature := 0,
            compensatedPressure := 0, tcnt := 7 }
        with tcnt := 0 } := by
  refine ⟨?_, ?_⟩
  · exact (isr_while_locked_defers_one_step ⟨true, 1, 2, 3⟩ ⟨true, 4, 5, 6⟩
      _ rfl).2.2.2.2.1
  · exact (isr_while_locked_defers_one_step ⟨true, 1, 2, 3⟩ ⟨true, 4, 5, 6⟩
      _ rfl).2.2.2.2.2

/-- Auxiliary invariant for the alternation property: starting from
`measureStep = readTemp` and `newData = false`, after `n` sampler steps the
state is `readTemp` exactly when `n` is even, and `newData` holds exactly
when at least one full temperature+pressure pair has completed, i.e. when
`n ≥ 2`. -/
lemma stepIter_parity (bus : ℕ → BusRead3) (s : MsState)
    (hm : s.measureStep = MeasureStep.readTemp) (hn : s.newData = false) :
    ∀ n : ℕ,
      (stepIter bus n s).measureStep =
        (if n % 2 = 0 then MeasureStep.readTemp else MeasureStep.readPressure) ∧
      (stepIter bus n s).newData = decide (2 ≤ n)
  | 0 => by simp [stepIter, hm, hn]
  | n + 1 => by
    obtain ⟨ihm, ihn⟩ := stepIter_parity bus s hm hn n
    rcases Nat.even_or_odd n with he | ho
    · have h0 : n % 2 = 0 := Nat.even_iff.mp he
      have h1 : (n + 1) % 2 = 1 := by omega
      constructor
      · simp [stepIter, ms5611_readStep, ihm, h0, h1, ms5611_readTempStep]
      · have : n = 0 ∨ 2 ≤ n := by omega
        rcases this with rfl | h2
        · simp_all [stepIter, ms5611_readStep, ms5611_readTempStep]
        · simp [stepIter, ms5611_readStep, ihm, h0, ms5611_readTempStep, ihn]
          omega
    · have h0 : n % 2 = 1 := Nat.odd_iff.mp ho
      have h1 : (n + 1) % 2 = 0 := by omega
      constructor
      · simp [stepIter, ms5611_readStep, ihm, h0, h1, ms5611_readPressureStep]
      · simp [stepIter, ms5611_readStep, ihm, h0, ms5611_readPressureStep]
        omega

/-- C4: starting from `measureStep = readTemp` with `newData` clear, the
`n`-th `ms5611_readStep` call performs the half-cycle of the current state and
transitions to the other state (states strictly alternate with the parity of
`n`), and `newData` is newly set exactly on every second call — call `n+1`
leaves `newData` unchanged when `n+1` is odd and forces it true when `n+1` is
even — so after `n` calls `newData` holds exactly when `n ≥ 2`. -/
theorem step_alternation (bus : ℕ → BusRead3) (s : MsState) (n : ℕ)
    (hm : s.measureStep = MeasureStep.readTemp) (hn : s.newData = false) :
    (stepIter bus n s).measureStep =
      (if n % 2 = 0 then MeasureStep.readTemp else MeasureStep.readPressure) ∧
    (stepIter bus (n + 1) s).newData =
      ((stepIter bus n s).newData || decide ((n + 1) % 2 = 0)) ∧
    (stepIter bus n s).newData = decide (2 ≤ n) := by
  obtain ⟨h1, h2⟩ := stepIter_parity bus s hm hn n
  obtain ⟨h1', h2'⟩ := stepIter_parity bus s hm hn (n + 1)
  refine ⟨h1, ?_, h2⟩
  rw [h2, h2']
  rcases Nat.even_or_odd n with he | ho
  · have h0 : n % 2 = 0 := Nat.even_iff.mp he
    have : (n + 1) % 2 = 1 := by omega
    simp only [this]
    rcases (by omega : n = 0 ∨ 2 ≤ n) with rfl | hge <;> simp <;> omega
  · have h0 : n % 2 = 1 := Nat.odd_iff.mp ho
    have : (n + 1) % 2 = 0 := by omega
    simp only [this]
    simp
    omega

/-- Witness for `step_alternation`: two steps from the initial state set
`newData`, and the state returns to `readTemp`. -/
theorem step_alternation_witness :
    (stepIter (fun _ => ⟨true, 0, 0, 1⟩) 2
        ⟨0, 0, MeasureStep.readTemp, false, false, false, true,
          1, 2, 3, 4, 5, 6, 0, 0, 0⟩).measureStep =
      (if 2 % 2 = 0 then MeasureStep.readTemp else MeasureStep.readPressure) ∧
    (stepIter (fun _ => ⟨true, 0, 0, 1⟩) 3
        ⟨0, 0, MeasureStep.readTemp, false, false, false, true,
          1, 2, 3, 4, 5, 6, 0, 0, 0⟩).newData =
      ((stepIter (fun _ => ⟨true, 0, 0, 1⟩) 2
        ⟨0, 0, MeasureStep.readTemp, false, false, false, true,
          1, 2, 3, 4, 5, 6, 0, 0, 0⟩).newData || decide ((2 + 1) % 2 = 0)) ∧
    (stepIter (fun _ => ⟨true, 0, 0, 1⟩) 2
        ⟨0, 0, MeasureStep.readTemp, false, false, false, true,
          1, 2, 3, 4, 5, 6, 0, 0, 0⟩).newData = decide (2 ≤ 2) :=
  step_alternation (fun _ => ⟨true, 0, 0, 1⟩) _ 2 rfl rfl

/-- C6 counterexample: `ms5611_init` also sets `newData` to `false`, outside
any critical section — here a concrete unlocked state with `newData = true`
loses the flag to `ms5611_init`, so the critical section of
`ms5611_updateData` is not the only place where `NewDataFlag` is cleared. -/
theorem init_clears_newData_outside_lock :
    ((⟨0, 0, MeasureStep.readTemp, true, false, false, true,
        1, 2, 3, 4, 5, 6, 0, 0, 0⟩ : MsState).newData = true) ∧
    ((⟨0, 0, MeasureStep.readTemp, true, false, false, true,
        1, 2, 3, 4, 5, 6, 0, 0, 0⟩ : MsState).locked = false) ∧
    (ms5611_init (fun _ => ⟨true, 0, 0⟩)
        ⟨0, 0, MeasureStep.readTemp, true, false, false, true,
          1, 2, 3, 4, 5, 6, 0, 0, 0⟩).newData = false := by
  exact ⟨rfl, rfl, rfl⟩

/-- C6 (amended): `ms5611_updateData` acquires the lock, copies `d1i` and
`d2i` and clears `newData` all inside the same critical section, releases the
lock before the compensation arithmetic (the final state is the released
state with only the two compensated values replaced, computed from the copies
taken inside the critical section), and on return the lock is released; apart
from `ms5611_init`, no other driver operation (`readStep`, the interrupt
handler, `lock`, `release`) ever clears `newData`. -/
theorem newData_cleared_only_in_critical_section
    (s u : MsState) (r a : BusRead3) (hu : u.newData = true) :
    (ms5611_updateData_critical s).1.locked = true ∧
    (ms5611_updateData_critical s).1.newData = false ∧
    (ms5611_updateData_critical s).2.1 = s.d1i ∧
    (ms5611_updateData_critical s).2.2 = s.d2i ∧
    (ms5611_updateData r s).locked = false ∧
    ms5611_updateData r s =
      { ms5611_release r (ms5611_updateData_critical s).1 with
        compensatedTemperature :=
          ((ms_updateCompensated s.c1 s.c2 s.c3 s.c4 s.c5 s.c6
            s.d1i s.d2i).1 : ℚ) / 100,
        compensatedPressure :=
          (((ms_updateCompensated s.c1 s.c2 s.c3 s.c4 s.c5 s.c6
            s.d1i s.d2i).2 : ℚ) / 32768) / 100 } ∧
    (ms5611_readStep a u).newData = true ∧
    (ms5611_isr a u).newData = true ∧
    (ms5611_release a u).newData = true ∧
    (ms5611_lock u).newData = true := by
  cases s with
  | mk d1i d2i ms nd lk iw dr c1 c2 c3 c4 c5 c6 ct cp tc =>
    cases u with
    | mk e1 e2 us und ulk uiw udr x1 x2 x3 x4 x5 x6 xt xp xc =>
      simp only at hu
      subst hu
      cases ms <;> cases us <;> cases ulk <;> cases uiw <;> cases iw <;>
        simp [ms5611_updateData, ms5611_updateData_critical, ms5611_lock,
          ms5611_release, ms5611_readStep, ms5611_readTempStep,
          ms5611_readPressureStep, ms5611_isr]

/-- Witness for `newData_cleared_only_in_critical_section` at concrete
states. -/
theorem newData_cleared_only_in_critical_section_witness :
    (ms5611_updateData ⟨true, 1, 2, 3⟩
      ⟨0, 0, MeasureStep.readTemp, true, false, false, true,
        1, 2, 3, 4, 5, 6, 0, 0, 0⟩).locked = false ∧
    (ms5611_release ⟨true, 1, 2, 3⟩
      ⟨0, 0, MeasureStep.readTemp, true, false, true, true,
        1, 2, 3, 4, 5, 6, 0, 0, 0⟩).newData = true := by
  refine ⟨?_, ?_⟩
  · exact (newData_cleared_only_in_critical_section
      ⟨0, 0, MeasureStep.readTemp, true, false, false, true,
        1, 2, 3, 4, 5, 6, 0, 0, 0⟩
      ⟨0, 0, MeasureStep.readTemp, true, false, true, true,
        1, 2, 3, 4, 5, 6, 0, 0, 0⟩
      ⟨true, 1, 2, 3⟩ ⟨true, 1, 2, 3⟩ rfl).2.2.2.2.1
  · exact (newData_cleared_only_in_critical_section
      ⟨0, 0, MeasureStep.readTemp, true, false, false, true,
        1, 2, 3, 4, 5, 6, 0, 0, 0⟩
      ⟨0, 0, MeasureStep.readTemp, true, false, true, true,
        1, 2, 3, 4, 5, 6, 0, 0, 0⟩
      ⟨true, 1, 2, 3⟩ ⟨true, 1, 2, 3⟩ rfl).2.2.2.2.2.2.2.2.1

/-- C7 counterexample: a failed 3-byte bus read does not leave the
destination raw value unchanged — `ms5611_getDigitalValue` ignores the
transaction status and overwrites the destination with the assembled buffer
bytes (here a previous value `5` becomes `0`). -/
theorem failed_read_overwrites_destination :
    ms5611_getDigitalValue ⟨false, 0, 0, 0⟩ 5 ≠ 5 := by
  decide

/-- C7 (amended): on a failed bus transaction both readers ignore the failure
and unconditionally overwrite: `ms5611_getDigitalValue` returns the value
assembled from whatever bytes are in the buffer, independently of the
previous destination value and of the success status, and
`ms5611_getPROMValue` likewise returns the assembled buffer bytes, so a
failed read hands the caller freshly-written garbage, not the stale previous
value. -/
theorem failed_read_writes_buffer_bytes (r : BusRead3) (q : BusRead2)
    (v v' : ℤ) (hr : r.ok = false) (hq : q.ok = false) :
    ms5611_getDigitalValue r v = (r.b0 * 256 + r.b1) * 256 + r.b2 ∧
    ms5611_getDigitalValue r v = ms5611_getDigitalValue r v' ∧
    ms5611_getDigitalValue ⟨true, r.b0, r.b1, r.b2⟩ v =
      ms5611_getDigitalValue r v ∧
    ms5611_getPROMValue q = q.b0 * 256 + q.b1 ∧
    ms5611_getPROMValue ⟨true, q.b0, q.b1⟩ = ms5611_getPROMValue q := by
  exact ⟨rfl, rfl, rfl, rfl, rfl⟩

/-- Witness for `failed_read_writes_buffer_bytes` on a concrete failed
transaction. -/
theorem failed_read_writes_buffer_bytes_witness :
    ms5611_getDigitalValue ⟨false, 1, 2, 3⟩ 5 = (1 * 256 + 2) * 256 + 3 ∧
    ms5611_getPROMValue ⟨false, 3, 7⟩ = 3 * 256 + 7 := by
  refine ⟨?_, ?_⟩
  · exact (failed_read_writes_buffer_bytes ⟨false, 1, 2, 3⟩ ⟨false, 3, 7⟩
      5 9 rfl rfl).1
  · exact (failed_read_writes_buffer_bytes ⟨false, 1, 2, 3⟩ ⟨false, 3, 7⟩
      5 9 rfl rfl).2.2.2.1

/-- C9: on the first `ms5611_init` call (device not yet reset) the six
coefficients are loaded from the PROM reads and `deviceReset` is set; any
later `ms5611_init` call leaves them unchanged (no re-read), and no other
driver operation ever modifies them. -/
theorem calibration_loaded_once (s u v : MsState)
    (prom prom' prom'' : Fin 6 → BusRead2) (r : BusRead3)
    (h : s.deviceReset = false) (hu : u.deviceReset = true) :
    coeffs (ms5611_init prom s) =
      (ms5611_getPROMValue (prom 0), ms5611_getPROMValue (prom 1),
        ms5611_getPROMValue (prom 2), ms5611_getPROMValue (prom 3),
        ms5611_getPROMValue (prom 4), ms5611_getPROMValue (prom 5)) ∧
    (ms5611_init prom s).deviceReset = true ∧
    coeffs (ms5611_init prom' (ms5611_init prom s)) =
      coeffs (ms5611_init prom s) ∧
    coeffs (ms5611_init prom'' u) = coeffs u ∧
    coeffs (ms5611_readStep r v) = coeffs v ∧
    coeffs (ms5611_isr r v) = coeffs v ∧
    coeffs (ms5611_lock v) = coeffs v ∧
    coeffs (ms5611_release r v) = coeffs v ∧
    coeffs (ms5611_updateData r v) = coeffs v ∧
    coeffs (ms5611_setTimer v) = coeffs v ∧
    coeffs (ms5611_updateData_critical v).1 = coeffs v := by
  cases s with
  | mk d1i d2i ms nd lk iw dr c1 c2 c3 c4 c5 c6 ct cp tc =>
    simp only at h
    subst h
    cases v with
    | mk e1 e2 vs vnd vlk viw vdr x1 x2 x3 x4 x5 x6 xt xp xc =>
      cases u with
      | mk f1 f2 us und ulk uiw udr y1 y2 y3 y4 y5 y6 yt yp yc =>
        simp only at hu
        subst hu
        cases ms <;> cases vs <;> cases viw <;> cases vlk <;>
          simp [ms5611_init, ms5611_setTimer, coeffs, ms5611_readStep,
            ms5611_readTempStep, ms5611_readPressureStep, ms5611_isr,
            ms5611_lock, ms5611_release, ms5611_updateData,
            ms5611_updateData_critical]

/-- Witness for `calibration_loaded_once` at concrete states and PROM
reads. -/
theorem calibration_loaded_once_witness :
    coeffs (ms5611_init (fun i => ⟨true, 0, (i : ℤ) + 1⟩)
        ⟨0, 0, MeasureStep.readTemp, false, false, false, false,
          0, 0, 0, 0, 0, 0, 0, 0, 0⟩) =
      (1, 2, 3, 4, 5, 6) ∧
    coeffs (ms5611_init (fun _ => ⟨true, 9, 9⟩)
        ⟨0, 0, MeasureStep.readTemp, false, false, false, true,
          1, 2, 3, 4, 5, 6, 0, 0, 0⟩) = (1, 2, 3, 4, 5, 6) := by
  have h := calibration_loaded_once
    ⟨0, 0, MeasureStep.readTemp, false, false, false, false,
      0, 0, 0, 0, 0, 0, 0, 0, 0⟩
    ⟨0, 0, MeasureStep.readTemp, false, false, false, true,
      1, 2, 3, 4, 5, 6, 0, 0, 0⟩
    ⟨0, 0, MeasureStep.readTemp, false, false, false, true,
      1, 2, 3, 4, 5, 6, 0, 0, 0⟩
    (fun i => ⟨true, 0, (i : ℤ) + 1⟩) (fun _ => ⟨true, 9, 9⟩)
    (fun _ => ⟨true, 9, 9⟩) ⟨true, 0, 0, 0⟩ rfl rfl
  refine ⟨?_, ?_⟩
  · rw [h.1]; decide
  · rw [h.2.2.2.1]; decide

/-- C10: `ms5611_updateData` has no guard on `newData`: its compensated
outputs are always recomputed from the current raw values and overwrite the
stored ones, its result does not depend on the incoming `newData` flag at
all, and — when no deferred producer step is pending — a second call with no
intervening producer activity yields exactly the same compensated outputs. -/
theorem update_unguarded_and_idempotent (s : MsState) (r r' : BusRead3)
    (b : Bool) (h : s.interruptWait = false) :
    (ms5611_updateData r s).compensatedTemperature =
      ((ms_updateCompensated s.c1 s.c2 s.c3 s.c4 s.c5 s.c6
        s.d1i s.d2i).1 : ℚ) / 100 ∧
    (ms5611_updateData r s).compensatedPressure =
      (((ms_updateCompensated s.c1 s.c2 s.c3 s.c4 s.c5 s.c6
        s.d1i s.d2i).2 : ℚ) / 32768) / 100 ∧
    ms5611_updateData r { s with newData := b } = ms5611_updateData r s ∧
    (ms5611_updateData r' (ms5611_updateData r s)).compensatedTemperature =
      (ms5611_updateData r s).compensatedTemperature ∧
    (ms5611_updateData r' (ms5611_updateData r s)).compensatedPressure =
      (ms5611_updateData r s).compensatedPressure := by
  cases s with
  | mk d1i d2i ms nd lk iw dr c1 c2 c3 c4 c5 c6 ct cp tc =>
    simp only at h
    subst h
    simp [ms5611_updateData, ms5611_updateData_critical, ms5611_lock,
      ms5611_release]

/-- Witness for `update_unguarded_and_idempotent` at a concrete state with
`newData` already false. -/
theorem update_unguarded_and_idempotent_witness :
    (ms5611_updateData ⟨true, 1, 2, 3⟩
      ⟨0, 0, MeasureStep.readTemp, false, false, false, true,
        0, 0, 0, 0, 0, 0, 0, 0, 0⟩).compensatedTemperature =
      ((ms_updateCompensated 0 0 0 0 0 0 0 0).1 : ℚ) / 100 ∧
    ms5611_updateData ⟨true, 1, 2, 3⟩
      ⟨0, 0, MeasureStep.readTemp, true, false, false, true,
        0, 0, 0, 0, 0, 0, 0, 0, 0⟩ =
      ms5611_updateData ⟨true, 1, 2, 3⟩
        ⟨0, 0, MeasureStep.readTemp, false, false, false, true,
          0, 0, 0, 0, 0, 0, 0, 0, 0⟩ := by
  have h := update_unguarded_and_idempotent
    ⟨0, 0, MeasureStep.readTemp, false, false, false, true,
      0, 0, 0, 0, 0, 0, 0, 0, 0⟩
    ⟨true, 1, 2, 3⟩ ⟨true, 4, 5, 6⟩ true rfl
  exact ⟨h.1, h.2.2.1⟩

/-! ### Arithmetic facts about the wrapping primitives -/

/-- Storing a value that fits in 32 bits is lossless. -/
lemma wrap32_eq {x : ℤ} (h1 : -2147483648 ≤ x) (h2 : x < 2147483648) :
    wrap32 x = x := by
  unfold wrap32
  omega

/-- A wrapped 32-bit value is at least `-2^31`. -/
lemma wrap32_lb (x : ℤ) : -2147483648 ≤ wrap32 x := by
  unfold wrap32
  omega

/-- A wrapped 32-bit value is below `2^31`. -/
lemma wrap32_ub (x : ℤ) : wrap32 x < 2147483648 := by
  unfold wrap32
  omega

/-- Storing a value that fits in 64 bits is lossless. -/
lemma wrap64_eq {x : ℤ} (h1 : -9223372036854775808 ≤ x)
    (h2 : x < 9223372036854775808) : wrap64 x = x := by
  unfold wrap64
  omega

/-- Symmetric bound on a product of a nonnegative bounded factor and a
bounded factor. -/
lemma mul_bounds {x y a b : ℤ} (hx0 : 0 ≤ x) (hxa : x ≤ a) (hyl : -b ≤ y)
    (hyu : y ≤ b) (hb0 : 0 ≤ b) : -(a * b) ≤ x * y ∧ x * y ≤ a * b := by
  have h1 : x * y ≤ x * b := mul_le_mul_of_nonneg_left hyu hx0
  have h2 : x * b ≤ a * b := mul_le_mul_of_nonneg_right hxa hb0
  have h3 : x * (-b) ≤ x * y := mul_le_mul_of_nonneg_left hyl hx0
  constructor
  · nlinarith
  · linarith

/-- Symmetric bound on a square of a bounded factor. -/
lemma sq_bounds {y b : ℤ} (hyl : -b ≤ y) (hyu : y ≤ b) :
    0 ≤ y * y ∧ y * y ≤ b * b := by
  refine ⟨mul_self_nonneg y, ?_⟩
  nlinarith [mul_nonneg (sub_nonneg.2 hyu) (by linarith : (0 : ℤ) ≤ b + y)]

/-- Floor division by a positive constant keeps a symmetric bound. -/
lemma ediv_bounds {x B : ℤ} (n : ℤ) (hn : 0 < n) (hB : 0 ≤ B) (h1 : -B ≤ x)
    (h2 : x ≤ B) : -B ≤ x / n ∧ x / n ≤ B := by
  constructor
  · rw [Int.le_ediv_iff_mul_le hn]
    nlinarith
  · have : x / n < B + 1 := by
      rw [Int.ediv_lt_iff_lt_mul hn]
      nlinarith
    omega

/-! ### The compensation pipeline matches the (amended) reference algorithm -/

/-- Stage 1: on in-range inputs, the first-order block of the code computes
exactly the reference `dT`, `OFF`, `SENS` — and the truncated `TEMP` of
`spec_TEMPTrunc`, in which the product `C6 * dT` passes through a signed
32-bit intermediate. -/
lemma ms_firstOrder_eq (c1 c2 c3 c4 c5 c6 d2 : ℤ)
    (hc1 : 0 ≤ c1 ∧ c1 ≤ 65535) (hc2 : 0 ≤ c2 ∧ c2 ≤ 65535)
    (hc3 : 0 ≤ c3 ∧ c3 ≤ 65535) (hc4 : 0 ≤ c4 ∧ c4 ≤ 65535)
    (hc5 : 0 ≤ c5 ∧ c5 ≤ 65535) (hc6 : 0 ≤ c6 ∧ c6 ≤ 65535)
    (hd2 : 0 ≤ d2 ∧ d2 ≤ 16777215) :
    ms_firstOrder c1 c2 c3 c4 c5 c6 d2 =
      (spec_dT c5 d2, spec_TEMPTrunc c5 c6 d2, spec_OFF c2 c4 c5 d2,
        spec_SENS c1 c3 c5 d2) := by
  obtain ⟨hc1a, hc1b⟩ := hc1
  obtain ⟨hc2a, hc2b⟩ := hc2
  obtain ⟨hc3a, hc3b⟩ := hc3
  obtain ⟨hc4a, hc4b⟩ := hc4
  obtain ⟨hc5a, hc5b⟩ := hc5
  obtain ⟨hc6a, hc6b⟩ := hc6
  obtain ⟨hd2a, hd2b⟩ := hd2
  have hdtl : -16776960 ≤ d2 - c5 * 256 := by omega
  have hdtu : d2 - c5 * 256 ≤ 16777215 := by omega
  have hc5w : wrap32 c5 = c5 := wrap32_eq (by omega) (by omega)
  have hc5s : wrap32 (c5 * 256) = c5 * 256 := wrap32_eq (by omega) (by omega)
  have hdt : wrap32 (d2 - c5 * 256) = d2 - c5 * 256 :=
    wrap32_eq (by omega) (by omega)
  have hc6w : wrap32 c6 = c6 := wrap32_eq (by omega) (by omega)
  have htemp :
      wrap32 (2000 + wrap32 (c6 * (d2 - c5 * 256)) / 8388608) =
        2000 + wrap32 (c6 * (d2 - c5 * 256)) / 8388608 := by
    have hl := wrap32_lb (c6 * (d2 - c5 * 256))
    have hu := wrap32_ub (c6 * (d2 - c5 * 256))
    exact wrap32_eq (by omega) (by omega)
  have hc2w : wrap64 c2 = c2 := wrap64_eq (by omega) (by omega)
  have hc2d : wrap64 (c2 * 65536) = c2 * 65536 :=
    wrap64_eq (by omega) (by omega)
  have hc4w : wrap64 c4 = c4 := wrap64_eq (by omega) (by omega)
  have hc4p := mul_bounds hc4a hc4b
    (by omega : -(16777215 : ℤ) ≤ d2 - c5 * 256) hdtu
    (by norm_num : (0 : ℤ) ≤ 16777215)
  have hc4d : wrap64 (c4 * (d2 - c5 * 256)) = c4 * (d2 - c5 * 256) :=
    wrap64_eq (by linarith [hc4p.1]) (by linarith [hc4p.2])
  have hc4q := ediv_bounds (x := c4 * (d2 - c5 * 256)) (B := 65535 * 16777215)
    128 (by norm_num) (by norm_num) hc4p.1 hc4p.2
  have hoff :
      wrap64 (c2 * 65536 + c4 * (d2 - c5 * 256) / 128) =
        c2 * 65536 + c4 * (d2 - c5 * 256) / 128 :=
    wrap64_eq (by linarith [hc4q.1]) (by linarith [hc4q.2])
  have hc1w : wrap64 c1 = c1 := wrap64_eq (by omega) (by omega)
  have hc1d : wrap64 (c1 * 32768) = c1 * 32768 :=
    wrap64_eq (by omega) (by omega)
  have hc3w : wrap64 c3 = c3 := wrap64_eq (by omega) (by omega)
  have hc3p := mul_bounds hc3a hc3b
    (by omega : -(16777215 : ℤ) ≤ d2 - c5 * 256) hdtu
    (by norm_num : (0 : ℤ) ≤ 16777215)
  have hc3d : wrap64 (c3 * (d2 - c5 * 256)) = c3 * (d2 - c5 * 256) :=
    wrap64_eq (by linarith [hc3p.1]) (by linarith [hc3p.2])
  have hc3q := ediv_bounds (x := c3 * (d2 - c5 * 256)) (B := 65535 * 16777215)
    256 (by norm_num) (by norm_num) hc3p.1 hc3p.2
  have hsens :
      wrap64 (c1 * 32768 + c3 * (d2 - c5 * 256) / 256) =
        c1 * 32768 + c3 * (d2 - c5 * 256) / 256 :=
    wrap64_eq (by linarith [hc3q.1]) (by linarith [hc3q.2])
  simp only [ms_firstOrder, spec_dT, spec_TEMPTrunc, spec_OFF, spec_SENS]
  rw [hc5w, hc5s, hdt, hc6w, htemp, hc2w, hc2d, hc4w, hc4d, hoff, hc1w, hc1d,
    hc3w, hc3d, hsens]

/-- Stage 2: on the value ranges that stage 1 produces, the second-order
block of the code computes exactly the reference corrections of
`spec_second`. -/
lemma ms_secondOrder_eq (dt temp off sens : ℤ)
    (hdt : -16776960 ≤ dt ∧ dt ≤ 16777215)
    (htemp : 1744 ≤ temp ∧ temp ≤ 2255)
    (hoff : -17179869184 ≤ off ∧ off ≤ 17179869184)
    (hsens : -17179869184 ≤ sens ∧ sens ≤ 17179869184) :
    ms_secondOrder dt temp off sens = spec_second dt temp off sens := by
  obtain ⟨hdta, hdtb⟩ := hdt
  obtain ⟨hta, htb⟩ := htemp
  obtain ⟨hoa, hob⟩ := hoff
  obtain ⟨hsa, hsb⟩ := hsens
  by_cases hcase : temp < 2000
  · have hinner : ¬temp < -1500 := by omega
    have hdtw : wrap64 dt = dt := wrap64_eq (by omega) (by omega)
    have hdtsq := sq_bounds (y := dt) (b := 16777215) (by omega) hdtb
    have ht2w : wrap64 (dt * dt) = dt * dt :=
      wrap64_eq (by linarith [hdtsq.1]) (by linarith [hdtsq.2])
    have ht2nn : 0 ≤ dt * dt / 2147483648 :=
      Int.ediv_nonneg hdtsq.1 (by norm_num)
    have ht2ub : dt * dt / 2147483648 < 131072 := by
      rw [Int.ediv_lt_iff_lt_mul (by norm_num)]
      linarith [hdtsq.2]
    have hsqw : wrap64 (temp - 2000) = temp - 2000 :=
      wrap64_eq (by omega) (by omega)
    have hsq := sq_bounds (y := temp - 2000) (b := 256) (by omega) (by omega)
    have hsq64 :
        wrap64 ((temp - 2000) * (temp - 2000)) =
          (temp - 2000) * (temp - 2000) :=
      wrap64_eq (by linarith [hsq.1]) (by linarith [hsq.2])
    have h5 :
        wrap64 ((temp - 2000) * (temp - 2000) * 5) =
          (temp - 2000) * (temp - 2000) * 5 :=
      wrap64_eq (by linarith [hsq.1]) (by linarith [hsq.2])
    have h5q2 := ediv_bounds (x := (temp - 2000) * (temp - 2000) * 5)
      (B := 327680) 2 (by norm_num) (by norm_num)
      (by linarith [hsq.1]) (by linarith [hsq.2])
    have h5q4 := ediv_bounds (x := (temp - 2000) * (temp - 2000) * 5)
      (B := 327680) 4 (by norm_num) (by norm_num)
      (by linarith [hsq.1]) (by linarith [hsq.2])
    have hwtemp :
        wrap32 (temp - dt * dt / 2147483648) =
          temp - dt * dt / 2147483648 :=
      wrap32_eq (by linarith) (by linarith)
    have hwoff :
        wrap64 (off - (temp - 2000) * (temp - 2000) * 5 / 2) =
          off - (temp - 2000) * (temp - 2000) * 5 / 2 :=
      wrap64_eq (by linarith [h5q2.1, h5q2.2]) (by linarith [h5q2.1, h5q2.2])
    have hwsens :
        wrap64 (sens - (temp - 2000) * (temp - 2000) * 5 / 4) =
          sens - (temp - 2000) * (temp - 2000) * 5 / 4 :=
      wrap64_eq (by linarith [h5q4.1, h5q4.2]) (by linarith [h5q4.1, h5q4.2])
    have hcomm5 :
        (5 : ℤ) * ((temp - 2000) * (temp - 2000)) =
          (temp - 2000) * (temp - 2000) * 5 := by ring
    simp only [ms_secondOrder, spec_second, if_pos hcase, if_neg hinner,
      add_zero]
    rw [hdtw, ht2w, hsqw, hsq64, h5, hcomm5, hwtemp, hwoff, hwsens]
  · simp [ms_secondOrder, spec_second, hcase]

/-- Floor division by a positive constant, with a strict bound on the
dividend expressed against the quotient bound. -/
lemma ediv_bounds_lt {x n B : ℤ} (hn : 0 < n) (h1 : -(B * n) ≤ x)
    (h2 : x < B * n) : -B ≤ x / n ∧ x / n < B := by
  constructor
  · rw [Int.le_ediv_iff_mul_le hn]
    nlinarith
  · rw [Int.ediv_lt_iff_lt_mul hn]
    linarith

/-- Stage 3: on in-range inputs, the pressure block of the code computes
exactly the reference `P`. -/
lemma ms_pressure_eq (d1 sens off : ℤ)
    (hd1 : 0 ≤ d1 ∧ d1 ≤ 16777215)
    (hsens : -34359738368 ≤ sens ∧ sens ≤ 34359738368)
    (hoff : -34359738368 ≤ off ∧ off ≤ 34359738368) :
    ms_pressure d1 sens off = spec_P d1 sens off := by
  obtain ⟨hd1a, hd1b⟩ := hd1
  obtain ⟨hsa, hsb⟩ := hsens
  obtain ⟨hoa, hob⟩ := hoff
  have hp := mul_bounds hd1a hd1b hsa hsb (by norm_num)
  have hpw : wrap64 (d1 * sens) = d1 * sens :=
    wrap64_eq (by linarith [hp.1]) (by linarith [hp.2])
  have hpq := ediv_bounds (x := d1 * sens) (B := 16777215 * 34359738368)
    2097152 (by norm_num) (by norm_num) hp.1 hp.2
  have hfin :
      wrap64 (d1 * sens / 2097152 - off) = d1 * sens / 2097152 - off :=
    wrap64_eq (by linarith [hpq.1]) (by linarith [hpq.2])
  simp only [ms_pressure, spec_P]
  rw [hpw, hfin]

/-- The raw temperature difference `dT` of the reference algorithm is a
25-bit signed quantity. -/
lemma spec_dT_bounds (c5 d2 : ℤ) (hc5 : 0 ≤ c5 ∧ c5 ≤ 65535)
    (hd2 : 0 ≤ d2 ∧ d2 ≤ 16777215) :
    -16776960 ≤ spec_dT c5 d2 ∧ spec_dT c5 d2 ≤ 16777215 := by
  unfold spec_dT
  omega

/-- The truncated `TEMP` always lies in `[1744, 2255]`: the 32-bit wrap of
`C6 * dT` bounds the correction term by `±256`. -/
lemma spec_TEMPTrunc_bounds (c5 c6 d2 : ℤ) :
    1744 ≤ spec_TEMPTrunc c5 c6 d2 ∧ spec_TEMPTrunc c5 c6 d2 ≤ 2255 := by
  unfold spec_TEMPTrunc
  have hl := wrap32_lb (c6 * spec_dT c5 d2)
  have hu := wrap32_ub (c6 * spec_dT c5 d2)
  have h1 : -256 ≤ wrap32 (c6 * spec_dT c5 d2) / 8388608 := by
    rw [Int.le_ediv_iff_mul_le (by norm_num)]
    linarith
  have h2 : wrap32 (c6 * spec_dT c5 d2) / 8388608 < 256 := by
    rw [Int.ediv_lt_iff_lt_mul (by norm_num)]
    linarith
  constructor <;> linarith

/-- First-order `OFF` is bounded well inside 64 bits. -/
lemma spec_OFF_bounds (c2 c4 c5 d2 : ℤ) (hc2 : 0 ≤ c2 ∧ c2 ≤ 65535)
    (hc4 : 0 ≤ c4 ∧ c4 ≤ 65535) (hc5 : 0 ≤ c5 ∧ c5 ≤ 65535)
    (hd2 : 0 ≤ d2 ∧ d2 ≤ 16777215) :
    -17179869184 ≤ spec_OFF c2 c4 c5 d2 ∧
      spec_OFF c2 c4 c5 d2 ≤ 17179869184 := by
  obtain ⟨hc2a, hc2b⟩ := hc2
  obtain ⟨hc4a, hc4b⟩ := hc4
  obtain ⟨hdta, hdtb⟩ := spec_dT_bounds c5 d2 hc5 hd2
  have hp := mul_bounds hc4a hc4b (by linarith : -(16777215 : ℤ) ≤ spec_dT c5 d2)
    hdtb (by norm_num)
  have hq := ediv_bounds_lt (x := c4 * spec_dT c5 d2) (B := 8589803009)
    (n := 128) (by norm_num) (by linarith [hp.1]) (by linarith [hp.2])
  unfold spec_OFF
  constructor <;> linarith [hq.1, hq.2]

/-- First-order `SENS` is bounded well inside 64 bits. -/
lemma spec_SENS_bounds (c1 c3 c5 d2 : ℤ) (hc1 : 0 ≤ c1 ∧ c1 ≤ 65535)
    (hc3 : 0 ≤ c3 ∧ c3 ≤ 65535) (hc5 : 0 ≤ c5 ∧ c5 ≤ 65535)
    (hd2 : 0 ≤ d2 ∧ d2 ≤ 16777215) :
    -17179869184 ≤ spec_SENS c1 c3 c5 d2 ∧
      spec_SENS c1 c3 c5 d2 ≤ 17179869184 := by
  obtain ⟨hc1a, hc1b⟩ := hc1
  obtain ⟨hc3a, hc3b⟩ := hc3
  obtain ⟨hdta, hdtb⟩ := spec_dT_bounds c5 d2 hc5 hd2
  have hp := mul_bounds hc3a hc3b (by linarith : -(16777215 : ℤ) ≤ spec_dT c5 d2)
    hdtb (by norm_num)
  have hq := ediv_bounds_lt (x := c3 * spec_dT c5 d2) (B := 4294901505)
    (n := 256) (by norm_num) (by linarith [hp.1]) (by linarith [hp.2])
  unfold spec_SENS
  constructor <;> linarith [hq.1, hq.2]

/-- The corrected `OFF` and `SENS` that `spec_second` hands to the pressure
computation stay bounded well inside 64 bits. -/
lemma spec_second_bounds (dT temp off sens : ℤ)
    (htemp : 1744 ≤ temp ∧ temp ≤ 2255)
    (hoff : -17179869184 ≤ off ∧ off ≤ 17179869184)
    (hsens : -17179869184 ≤ sens ∧ sens ≤ 17179869184) :
    (-34359738368 ≤ (spec_second dT temp off sens).2.1 ∧
      (spec_second dT temp off sens).2.1 ≤ 34359738368) ∧
    (-34359738368 ≤ (spec_second dT temp off sens).2.2 ∧
      (spec_second dT temp off sens).2.2 ≤ 34359738368) := by
  obtain ⟨hta, htb⟩ := htemp
  obtain ⟨hoa, hob⟩ := hoff
  obtain ⟨hsa, hsb⟩ := hsens
  by_cases hcase : temp < 2000
  · have hinner : ¬temp < -1500 := by omega
    have hsq := sq_bounds (y := temp - 2000) (b := 256) (by omega) (by omega)
    have h5q2 := ediv_bounds (x := 5 * ((temp - 2000) * (temp - 2000)))
      (B := 327680) 2 (by norm_num) (by norm_num)
      (by linarith [hsq.1]) (by linarith [hsq.2])
    have h5q4 := ediv_bounds (x := 5 * ((temp - 2000) * (temp - 2000)))
      (B := 327680) 4 (by norm_num) (by norm_num)
      (by linarith [hsq.1]) (by linarith [hsq.2])
    simp only [spec_second, if_pos hcase, if_neg hinner, add_zero]
    exact ⟨⟨by linarith [h5q2.1, h5q2.2], by linarith [h5q2.1, h5q2.2]⟩,
      ⟨by linarith [h5q4.1, h5q4.2], by linarith [h5q4.1, h5q4.2]⟩⟩
  · simp only [spec_second, if_neg hcase]
    exact ⟨⟨by linarith, by linarith⟩, ⟨by linarith, by linarith⟩⟩

/-- The full compensation pipeline of the code equals the reference
algorithm amended with the 32-bit truncation of `C6 * dT`, for every
coefficient in `[0, 65535]` and raw samples in `[0, 16777215]`. -/
lemma ms_updateCompensated_eq_trunc (c1 c2 c3 c4 c5 c6 d1 d2 : ℤ)
    (hc1 : 0 ≤ c1 ∧ c1 ≤ 65535) (hc2 : 0 ≤ c2 ∧ c2 ≤ 65535)
    (hc3 : 0 ≤ c3 ∧ c3 ≤ 65535) (hc4 : 0 ≤ c4 ∧ c4 ≤ 65535)
    (hc5 : 0 ≤ c5 ∧ c5 ≤ 65535) (hc6 : 0 ≤ c6 ∧ c6 ≤ 65535)
    (hd1 : 0 ≤ d1 ∧ d1 ≤ 16777215) (hd2 : 0 ≤ d2 ∧ d2 ≤ 16777215) :
    ms_updateCompensated c1 c2 c3 c4 c5 c6 d1 d2 =
      spec_compensateTrunc c1 c2 c3 c4 c5 c6 d1 d2 := by
  have h1 := ms_firstOrder_eq c1 c2 c3 c4 c5 c6 d2 hc1 hc2 hc3 hc4 hc5 hc6 hd2
  have h2 := ms_secondOrder_eq (spec_dT c5 d2) (spec_TEMPTrunc c5 c6 d2)
    (spec_OFF c2 c4 c5 d2) (spec_SENS c1 c3 c5 d2)
    (spec_dT_bounds c5 d2 hc5 hd2) (spec_TEMPTrunc_bounds c5 c6 d2)
    (spec_OFF_bounds c2 c4 c5 d2 hc2 hc4 hc5 hd2)
    (spec_SENS_bounds c1 c3 c5 d2 hc1 hc3 hc5 hd2)
  have h3 := spec_second_bounds (spec_dT c5 d2) (spec_TEMPTrunc c5 c6 d2)
    (spec_OFF c2 c4 c5 d2) (spec_SENS c1 c3 c5 d2)
    (spec_TEMPTrunc_bounds c5 c6 d2)
    (spec_OFF_bounds c2 c4 c5 d2 hc2 hc4 hc5 hd2)
    (spec_SENS_bounds c1 c3 c5 d2 hc1 hc3 hc5 hd2)
  have h4 := ms_pressure_eq d1
    (spec_second (spec_dT c5 d2) (spec_TEMPTrunc c5 c6 d2)
      (spec_OFF c2 c4 c5 d2) (spec_SENS c1 c3 c5 d2)).2.2
    (spec_second (spec_dT c5 d2) (spec_TEMPTrunc c5 c6 d2)
      (spec_OFF c2 c4 c5 d2) (spec_SENS c1 c3 c5 d2)).2.1
    hd1 h3.2 h3.1
  simp only [ms_updateCompensated, spec_compensateTrunc, h1, h2, h4]

/-- C1: the code does NOT compute every wide product in 64-bit arithmetic —
`c6s *= dt` is a 32-bit multiplication (`int32_t c6s`, line 239-240), and at
the in-range input `C1=..=C5=0, C6=65535, D1=0, D2=16777215` the product
`C6*dT = 65535*16777215` wraps, giving `TEMP = 1997` (and then a spurious
second-order correction down to `-129074`) where the arbitrary-precision
reference gives `TEMP = 133069`. -/
theorem c6_product_wraps_in_32_bits :
    (ms_updateCompensated 0 0 0 0 0 65535 0 16777215).1 = -129074 ∧
    (spec_compensate 0 0 0 0 0 65535 0 16777215).1 = 133069 ∧
    (ms_updateCompensated 0 0 0 0 0 65535 0 16777215).1 ≠
      (spec_compensate 0 0 0 0 0 65535 0 16777215).1 := by
  refine ⟨by decide, by decide, by decide⟩

/-- C2 counterexample: at the same in-range input the temperature stored by
`ms5611_updateData` differs from the arbitrary-precision reference
algorithm of spec section 4.3 — the claim of bit-for-bit agreement fails. -/
theorem updateData_ne_pure_reference :
    (ms5611_updateData ⟨true, 0, 0, 0⟩
      ⟨0, 16777215, MeasureStep.readTemp, true, false, false, true,
        0, 0, 0, 0, 0, 65535, 0, 0, 0⟩).compensatedTemperature ≠
      ((spec_compensate 0 0 0 0 0 65535 0 16777215).1 : ℚ) / 100 := by
  have h1 : (ms_updateCompensated 0 0 0 0 0 65535 0 16777215).1 = -129074 := by
    decide
  have h2 : (spec_compensate 0 0 0 0 0 65535 0 16777215).1 = 133069 := by
    decide
  simp [ms5611_updateData, ms5611_updateData_critical, ms5611_lock,
    ms5611_release, h1, h2]
  norm_num

/-- C2 (amended): for every coefficient in `[0, 65535]` and raw samples in
`[0, 16777215]`, `ms5611_updateData` stores exactly
`TEMP/100` and `(P/32768)/100` where `(TEMP, P)` is the reference algorithm
of spec section 4.3 amended in one place: the product `C6*dT` passes through
a signed 32-bit intermediate before the `>> 23`. -/
theorem updateData_matches_truncated_reference (s : MsState) (r : BusRead3)
    (hc1 : 0 ≤ s.c1 ∧ s.c1 ≤ 65535) (hc2 : 0 ≤ s.c2 ∧ s.c2 ≤ 65535)
    (hc3 : 0 ≤ s.c3 ∧ s.c3 ≤ 65535) (hc4 : 0 ≤ s.c4 ∧ s.c4 ≤ 65535)
    (hc5 : 0 ≤ s.c5 ∧ s.c5 ≤ 65535) (hc6 : 0 ≤ s.c6 ∧ s.c6 ≤ 65535)
    (hd1 : 0 ≤ s.d1i ∧ s.d1i ≤ 16777215)
    (hd2 : 0 ≤ s.d2i ∧ s.d2i ≤ 16777215) :
    (ms5611_updateData r s).compensatedTemperature =
      ((spec_compensateTrunc s.c1 s.c2 s.c3 s.c4 s.c5 s.c6
        s.d1i s.d2i).1 : ℚ) / 100 ∧
    (ms5611_updateData r s).compensatedPressure =
      (((spec_compensateTrunc s.c1 s.c2 s.c3 s.c4 s.c5 s.c6
        s.d1i s.d2i).2 : ℚ) / 32768) / 100 := by
  cases s with
  | mk d1i d2i ms nd lk iw dr c1 c2 c3 c4 c5 c6 ct cp tc =>
    simp only at hc1 hc2 hc3 hc4 hc5 hc6 hd1 hd2
    have h := ms_updateCompensated_eq_trunc c1 c2 c3 c4 c5 c6 d1i d2i
      hc1 hc2 hc3 hc4 hc5 hc6 hd1 hd2
    cases iw <;> cases ms <;>
      simp [ms5611_updateData, ms5611_updateData_critical, ms5611_lock,
        ms5611_release, ms5611_readStep, ms5611_readTempStep,
        ms5611_readPressureStep, h]

/-- Witness for `updateData_matches_truncated_reference` at the
manufacturer's example input. -/
theorem updateData_matches_truncated_reference_witness :
    (ms5611_updateData ⟨true, 0, 0, 0⟩
      ⟨9085466, 8569150, MeasureStep.readTemp, true, false, false, true,
        40127, 36924, 23317, 23282, 33464, 28312, 0, 0, 0⟩
      ).compensatedTemperature =
      ((spec_compensateTrunc 40127 36924 23317 23282 33464 28312
        9085466 8569150).1 : ℚ) / 100 ∧
    (ms5611_updateData ⟨true, 0, 0, 0⟩
      ⟨9085466, 8569150, MeasureStep.readTemp, true, false, false, true,
        40127, 36924, 23317, 23282, 33464, 28312, 0, 0, 0⟩
      ).compensatedPressure =
      (((spec_compensateTrunc 40127 36924 23317 23282 33464 28312
        9085466 8569150).2 : ℚ) / 32768) / 100 :=
  updateData_matches_truncated_reference
    ⟨9085466, 8569150, MeasureStep.readTemp, true, false, false, true,
      40127, 36924, 23317, 23282, 33464, 28312, 0, 0, 0⟩
    ⟨true, 0, 0, 0⟩ (by norm_num) (by norm_num) (by norm_num) (by norm_num)
    (by norm_num) (by norm_num) (by norm_num) (by norm_num)

/-- C5: for every in-range input, writing `(dt, temp, off, sens)` for the
first-order values of the code, the second-order block yields exactly the
corrections of the claim, each applied exactly once — `temp - (dt*dt >> 31)`,
`off - (5*(temp-2000)^2 >> 1)`, `sens - (5*(temp-2000)^2 >> 2)` when
`temp < 2000`, with the additional `7*(temp+1500)^2` and
`(11*(temp+1500)^2) >> 1` terms when also `temp < -1500`, and no change at
all when `temp ≥ 2000`. -/
theorem second_order_correction_applied_once
    (c1 c2 c3 c4 c5 c6 d2 dt temp off sens : ℤ)
    (hc1 : 0 ≤ c1 ∧ c1 ≤ 65535) (hc2 : 0 ≤ c2 ∧ c2 ≤ 65535)
    (hc3 : 0 ≤ c3 ∧ c3 ≤ 65535) (hc4 : 0 ≤ c4 ∧ c4 ≤ 65535)
    (hc5 : 0 ≤ c5 ∧ c5 ≤ 65535) (hc6 : 0 ≤ c6 ∧ c6 ≤ 65535)
    (hd2 : 0 ≤ d2 ∧ d2 ≤ 16777215)
    (hfo : ms_firstOrder c1 c2 c3 c4 c5 c6 d2 = (dt, temp, off, sens)) :
    ms_secondOrder dt temp off sens =
      if temp < 2000 then
        (temp - dt * dt / 2147483648,
         off - (5 * ((temp - 2000) * (temp - 2000)) / 2 +
           (if temp < -1500 then 7 * ((temp + 1500) * (temp + 1500)) else 0)),
         sens - (5 * ((temp - 2000) * (temp - 2000)) / 4 +
           (if temp < -1500 then 11 * ((temp + 1500) * (temp + 1500)) / 2
            else 0)))
      else (temp, off, sens) := by
  show ms_secondOrder dt temp off sens = spec_second dt temp off sens
  have h1 := ms_firstOrder_eq c1 c2 c3 c4 c5 c6 d2 hc1 hc2 hc3 hc4 hc5 hc6 hd2
  rw [hfo] at h1
  simp only [Prod.mk.injEq] at h1
  obtain ⟨e1, e2, e3, e4⟩ := h1
  subst e1 e2 e3 e4
  exact ms_secondOrder_eq _ _ _ _ (spec_dT_bounds c5 d2 hc5 hd2)
    (spec_TEMPTrunc_bounds c5 c6 d2)
    (spec_OFF_bounds c2 c4 c5 d2 hc2 hc4 hc5 hd2)
    (spec_SENS_bounds c1 c3 c5 d2 hc1 hc3 hc5 hd2)

/-- Witness for `second_order_correction_applied_once` at an input whose
first-order temperature (1997) takes the `temp < 2000` branch. -/
theorem second_order_correction_applied_once_witness :
    ms_firstOrder 0 0 0 0 0 65535 16777215 = (16777215, 1997, 0, 0) ∧
    ms_secondOrder 16777215 1997 0 0 =
      (if (1997 : ℤ) < 2000 then
        ((1997 : ℤ) - 16777215 * 16777215 / 2147483648,
         (0 : ℤ) - (5 * (((1997 : ℤ) - 2000) * ((1997 : ℤ) - 2000)) / 2 +
           (if (1997 : ℤ) < -1500 then
             7 * (((1997 : ℤ) + 1500) * ((1997 : ℤ) + 1500)) else 0)),
         (0 : ℤ) - (5 * (((1997 : ℤ) - 2000) * ((1997 : ℤ) - 2000)) / 4 +
           (if (1997 : ℤ) < -1500 then
             11 * (((1997 : ℤ) + 1500) * ((1997 : ℤ) + 1500)) / 2 else 0)))
      else ((1997 : ℤ), (0 : ℤ), (0 : ℤ))) := by
  refine ⟨by decide, ?_⟩
  exact second_order_correction_applied_once 0 0 0 0 0 65535 16777215
    16777215 1997 0 0 (by norm_num) (by norm_num) (by norm_num) (by norm_num)
    (by norm_num) (by norm_num) (by norm_num) (by decide)

/-- C8 counterexample: at stored pressure `500` and reference `1000` the
value returned by `ms5611_getAltitude` differs from the claimed formula with
exponent `1/5.25529` — the code's exponent literal is
`0.1902949572 = 1/5.255`, a strictly larger exponent, which makes the
returned altitude strictly larger. -/
theorem getAltitude_exponent_counterexample :
    ms5611_getAltitude 1000
      ⟨0, 0, MeasureStep.readTemp, false, false, false, true,
        0, 0, 0, 0, 0, 0, 0, 500, 0⟩ ≠
      (288.15 / 0.0065) * (1 - ((500 : ℝ) / 1000) ^ ((1 : ℝ) / 5.25529)) := by
  unfold ms5611_getAltitude
  simp only
  intro h
  have hx : ((((500 : ℚ) : ℝ)) / 1000 : ℝ) = 1 / 2 := by norm_num
  have hx' : (((500 : ℝ)) / 1000 : ℝ) = 1 / 2 := by norm_num
  rw [hx, hx'] at h
  have he : (1 : ℝ) / 5.25529 < 0.1902949572 := by norm_num
  have h2 : ((1 : ℝ) / 2) ^ (0.1902949572 : ℝ) <
      ((1 : ℝ) / 2) ^ ((1 : ℝ) / 5.25529) :=
    Real.rpow_lt_rpow_of_exponent_gt (by norm_num) (by norm_num) he
  have hk : (0 : ℝ) < 288.15 / 0.0065 := by norm_num
  nlinarith [mul_pos (sub_pos.mpr h2) hk]

/-- C8 (amended): `ms5611_getAltitude` computes
`(288.15/0.0065) * (1 - (p/base)^0.1902949572)` where `p` is the stored
compensated pressure and `base` is the fixed compile-time reference
`MS5611_BASE_SEA_PRESSURE` — not a per-call `referencePressure` argument,
and with the code's exponent `0.1902949572 ≈ 1/5.255`, not `1/5.25529`. -/
theorem getAltitude_formula (base : ℝ) (s : MsState) :
    ms5611_getAltitude base s =
      (288.15 / 0.0065) *
        (1 - ((s.compensatedPressure : ℝ) / base) ^ (0.1902949572 : ℝ)) := by
  unfold ms5611_getAltitude
  ring

end Ms5611
